import Mathlib

/-!
Verification of the reqproxy repository: a shallow embedding of the
Streamify duplex bridge (streaming/streamify.ts), the ProxyServer request
build, response branch and error handler (proxy/ProxyServer.ts), and the
Zipkin trace-context construction (tracer/ZipkinTracer.ts), together with
theorems settling the specification claims about them.
-/

/-! ## Decimal rendering of naturals

Models the JavaScript template-string rendering of a number, as in the
diagnostic body built by the response branch and JSON serialization. -/

/-- One decimal digit character. -/
def natDigitChar (n : Nat) : Char := Char.ofNat (48 + n % 10)

/-- Decimal digit list of a natural number, most significant first. -/
def natDigits (n : Nat) : List Char :=
  if _h : n < 10 then [natDigitChar n]
  else natDigits (n / 10) ++ [natDigitChar (n % 10)]
termination_by n
decreasing_by
  exact Nat.div_lt_self (by omega) (by omega)

/-- Decimal string of a natural number. -/
def natRepr (n : Nat) : String := String.mk (natDigits n)

/-! ## JSON values and JSON.stringify

Models the structured payloads a parsed request body can carry and the
serialization performed by JSON.stringify in the ProxyServer constructor.
String escaping is not modelled: member strings are embedded verbatim. -/

/-- A JSON value, the shape of a parsed structured payload. -/
inductive Jv where
  | jnull
  | jbool (b : Bool)
  | jnum (n : Nat)
  | jstr (s : String)
  | jarr (l : List Jv)
  | jobj (l : List (String × Jv))

mutual

/-- Serialization of a JSON value, modelling JSON.stringify. -/
def stringify : Jv → String
  | .jnull => "null"
  | .jbool true => "true"
  | .jbool false => "false"
  | .jnum n => natRepr n
  | .jstr s => "\"" ++ s ++ "\""
  | .jarr l => "[" ++ stringifyList l ++ "]"
  | .jobj l => "\x7b" ++ stringifyObj l ++ "\x7d"

/-- Serialization of the elements of a JSON array, comma separated. -/
def stringifyList : List Jv → String
  | [] => ""
  | [x] => stringify x
  | x :: y :: xs => stringify x ++ "," ++ stringifyList (y :: xs)

/-- Serialization of the members of a JSON object, comma separated. -/
def stringifyObj : List (String × Jv) → String
  | [] => ""
  | [(k, v)] => "\"" ++ k ++ "\":" ++ stringify v
  | (k, v) :: m :: xs => "\"" ++ k ++ "\":" ++ stringify v ++ "," ++ stringifyObj (m :: xs)

end

/-! ## ProxyServer: request build (constructor) and body attachment (dispatch)

Embeds the body-capture switch of the ProxyServer constructor and the
body-attachment condition of ProxyServer.dispatch. The inbound payload is
modelled by its JavaScript typeof classes as the switch sees them: a
string, a Readable stream, a Buffer (modelled by its decoded text), any
other object (a parsed JSON value, serialized), undefined (absent), and
the remaining primitive classes (number, boolean) that hit the default
branch. Methods are the uppercased method strings the constructor stores. -/

/-- The inbound request payload as classified by the constructor switch. -/
inductive Payload where
  | absent
  | text (s : String)
  | pstream (id : Nat)
  | buffer (s : String)
  | object (j : Jv)
  | jsNumber (n : Nat)
  | jsBool (b : Bool)

/-- The value of the body field of a ProxyServer after construction:
either a string (possibly the initial empty string) or a live stream. -/
inductive BodyVal where
  | str (s : String)
  | bstream (id : Nat)
deriving DecidableEq

/-- Errors raised by the ProxyServer constructor. -/
inductive ProxyError where
  | unsupportedPayloadType
deriving DecidableEq

/-- Body capture from the ProxyServer constructor: the body field starts as
the empty string; only for POST and PUT is the payload inspected, by typeof:
a string is taken as is, a Readable is kept as a stream, a Buffer is
converted to text, any other object is serialized with JSON.stringify,
undefined leaves the initial value, and every remaining typeof class
raises the unsupported-payload error. -/
def captureBody (m : String) (p : Payload) : Except ProxyError BodyVal :=
  if m = "POST" ∨ m = "PUT" then
    match p with
    | .text s => .ok (.str s)
    | .pstream i => .ok (.bstream i)
    | .buffer s => .ok (.str s)
    | .object j => .ok (.str (stringify j))
    | .absent => .ok (.str "")
    | .jsNumber _ => .error .unsupportedPayloadType
    | .jsBool _ => .error .unsupportedPayloadType
  else .ok (.str "")

/-- The outbound body handed to the proxy options: either the live stream
forwarded as is, or a read-only Streamify bridge fed the serialized text. -/
inductive OutboundBody where
  | live (id : Nat)
  | bridged (s : String)
deriving DecidableEq

/-- JavaScript truthiness of the stored body value: an empty string is
falsy, every stream object is truthy. -/
def bodyTruthy : BodyVal → Bool
  | .str s => !s.isEmpty
  | .bstream _ => true

/-- Body attachment from ProxyServer.dispatch: a buffer option is set only
when the stored body is truthy and the method is POST or PUT; a Readable
body is used directly, any other body is wrapped in a read-only Streamify
bridge fed the text followed by end of stream. -/
def attachBody (m : String) (b : BodyVal) : Option OutboundBody :=
  if bodyTruthy b = true ∧ (m = "POST" ∨ m = "PUT") then
    some (match b with
      | .bstream i => .live i
      | .str s => .bridged s)
  else none

/-- Composition of constructor-time capture and dispatch-time attachment. -/
def buildAndAttach (m : String) (p : Payload) : Except ProxyError (Option OutboundBody) :=
  (captureBody m p).map (attachBody m)

/-- Payload shapes after which dispatch attaches an outbound body for a
POST or PUT request: a nonempty text, a nonempty buffer, a stream, or a
structured object; an absent payload attaches nothing. -/
def attachablePayload : Payload → Bool
  | .absent => false
  | .text s => !s.isEmpty
  | .buffer s => !s.isEmpty
  | .pstream _ => true
  | .object _ => true
  | .jsNumber _ => false
  | .jsBool _ => false

/-- Payload shapes accepted by the constructor for POST and PUT requests. -/
def acceptedShape : Payload → Bool
  | .jsNumber _ => false
  | .jsBool _ => false
  | _ => true

/-! ## ProxyServer: response branch and tracer hook driving

Embeds the handler installed by setupProxyEvents for the response event of
the outbound request, as the ordered list of observable actions it
performs, in the order the statements execute: record the upstream status,
invoke every tracer hook for the first-byte point in registration order
(each call returning before the next starts), set the proxied-marker
header, then either end the client response with the diagnostic body (for
status at least 400, an absent status defaulting to 700) or relay the
upstream body chunks to the sink. The end and close events on the upstream
response likewise invoke every hook in registration order. Hooks are
identified by their registration index. -/

/-- A tracer lifecycle point driven by the response handler. -/
inductive LifePoint where
  | firstByte
  | upEnd
  | upClose
deriving DecidableEq

/-- An observable action of the response handler, in execution order. -/
inductive PEv where
  | recordStatus (c : Option Nat)
  | hookStart (p : LifePoint) (h : Nat)
  | hookRet (p : LifePoint) (h : Nat)
  | setHeader (name val : String)
  | clientWrite (chunk : String)
  | clientEndWith (body : String)
deriving DecidableEq

/-- Synchronous invocation of every hook at one lifecycle point, in
registration order: each start is immediately followed by its return. -/
def hookCalls (p : LifePoint) (hooks : List Nat) : List PEv :=
  hooks.flatMap (fun h => [.hookStart p h, .hookRet p h])

/-- The diagnostic body of the response branch for an upstream status at
least 400, embedding the rendered status code (undefined when absent). -/
def diagnosticBody (c : Option Nat) : String :=
  "Error Occurred: proxyRes.statusCode: " ++
    (match c with
     | some n => natRepr n
     | none => "undefined")

/-- The action trace of the response-event handler: status recording,
first-byte hooks in registration order, marker header, then the branch on
the upstream status of the error diagnostic against relaying the body. -/
def onResponse (hooks : List Nat) (statusCode : Option Nat) (upstream : List String) : List PEv :=
  [.recordStatus statusCode]
    ++ hookCalls .firstByte hooks
    ++ [.setHeader "X-Proxy-Server" "true"]
    ++ (if 400 ≤ statusCode.getD 700 then
          [.setHeader "Content-Type" "text/plain", .clientEndWith (diagnosticBody statusCode)]
        else upstream.map .clientWrite)

/-- The action trace of the end event of the upstream response. -/
def onUpstreamEnd (hooks : List Nat) : List PEv := hookCalls .upEnd hooks

/-- The action trace of the close event of the upstream response. -/
def onUpstreamClose (hooks : List Nat) : List PEv := hookCalls .upClose hooks

/-- Projection of the hook events of one lifecycle point from a trace,
pairing the hook index with true for a start and false for a return. -/
def hookEvProj (p : LifePoint) : PEv → Option (Nat × Bool)
  | .hookStart q h => if q = p then some (h, true) else none
  | .hookRet q h => if q = p then some (h, false) else none
  | _ => none

/-- Whether an action delivers response body bytes to the original sink. -/
def isBodyByte : PEv → Bool
  | .clientWrite _ => true
  | .clientEndWith _ => true
  | _ => false

/-- Whether an action is a hook event of the first-byte point. -/
def isFirstByteHookEv (e : PEv) : Bool := (hookEvProj .firstByte e).isSome

/-- The body chunks a trace relays to the sink from the upstream body. -/
def relayedChunks (t : List PEv) : List String :=
  t.filterMap (fun e => match e with
    | .clientWrite s => some s
    | _ => none)

/-- The bodies with which a trace ends the client response directly. -/
def endedBodies (t : List PEv) : List String :=
  t.filterMap (fun e => match e with
    | .clientEndWith s => some s
    | _ => none)

/-! ## ProxyServer: transport-error handler

Embeds the handler installed on the error event of the proxy: a sink that
is a full HTTP server response receives a 500 status with a fixed
plain-text body and is ended; a sink that is a raw socket is ended with no
body written; in both cases the error is consumed by the handler and never
becomes an exception of the dispatch call. -/

/-- An upstream transport failure kind. -/
inductive UpstreamError where
  | refused
  | reset
  | timeout
deriving DecidableEq

/-- The sink that receives the proxied response. -/
inductive Sink where
  | httpResponse
  | rawSocket
deriving DecidableEq

/-- The observable effect of the error handler on the sink. -/
inductive SinkOutcome where
  | wrote (status : Nat) (contentType : String) (body : String)
  | socketEnded
deriving DecidableEq

/-- The fixed diagnostic body written on a transport failure. -/
def proxyErrorMessage : String :=
  "Something went wrong. And we are reporting a custom error message."

/-- The error-event handler of the proxy, branching on the sink kind. -/
def onProxyError (_e : UpstreamError) (s : Sink) : SinkOutcome :=
  match s with
  | .httpResponse => .wrote 500 "text/plain" proxyErrorMessage
  | .rawSocket => .socketEnded

/-- The body the sink receives under an outcome, none when nothing is
written before the close. -/
def outcomeBody : SinkOutcome → Option String
  | .wrote _ _ b => some b
  | .socketEnded => none

/-- One dispatch through the outbound transport: a successful transport
produces the response-handler trace, a transport failure runs the error
handler; in neither case does an exception escape to the caller. -/
def proxyWeb (hooks : List Nat) (transport : Except UpstreamError (Option Nat × List String))
    (sink : Sink) : Except UpstreamError (List PEv ⊕ SinkOutcome) :=
  match transport with
  | .ok (status, body) => .ok (.inl (onResponse hooks status body))
  | .error e => .ok (.inr (onProxyError e sink))

/-! ## ZipkinTracer: trace-context construction

Embeds createOrContinueTrace of ZipkinTracerImpl. Headers are the five
optional B3 fields, absent or carrying an arbitrary string (an empty
string is a present but empty header, which JavaScript truthiness treats
like an absent one). The random identifier generation of createRootId is
modelled by an injective supply of distinct nonempty strings threaded as a
counter; a root context carries fresh identifiers and no parent. The flags
header is parsed with parseInt in base ten: optional leading whitespace
and sign followed by a longest digit prefix, NaN when there is none. -/

/-- The five B3 propagation headers of an inbound request. -/
structure B3Headers where
  traceid : Option String
  spanid : Option String
  parentspanid : Option String
  sampled : Option String
  flags : Option String

/-- JavaScript truthiness of an optional header string: absent and empty
are falsy. -/
def jsTruthy : Option String → Bool
  | none => false
  | some s => !s.isEmpty

/-- Value of the longest leading digit run, none when the first character
is not a digit. -/
def leadingDigits (cs : List Char) : Option Nat :=
  match cs.takeWhile Char.isDigit with
  | [] => none
  | ds => some (ds.foldl (fun a c => a * 10 + (c.toNat - 48)) 0)

/-- JavaScript parseInt with radix ten: skip leading whitespace, read an
optional sign and then the longest digit prefix; none models NaN. -/
def parseIntJS (s : String) : Option Int :=
  match s.data.dropWhile Char.isWhitespace with
  | '-' :: rest => (leadingDigits rest).map (fun n => -(n : Int))
  | '+' :: rest => (leadingDigits rest).map (fun n => (n : Int))
  | cs => (leadingDigits cs).map (fun n => (n : Int))

/-- The trace context built for one request. -/
structure TraceContext where
  traceId : String
  spanId : String
  parentId : Option String
  sampled : Option Bool
  debug : Bool
deriving DecidableEq

/-- The injective supply standing in for random identifier generation:
draw n yields a distinct nonempty string. -/
def freshId (n : Nat) : String := String.mk (List.replicate (n + 1) 'r')

/-- Embeds createOrContinueTrace: when the trace-id and span-id headers
are both truthy the trace is continued with those values, the parent id
when truthy, the sampled flag (comparison with the string one) when
truthy, and a debug flag true exactly when a truthy flags header parses
to one; otherwise a root context with fresh identifiers and no parent is
created, consuming one draw of the supply. -/
def createOrContinueTrace (h : B3Headers) (ctr : Nat) : TraceContext × Nat :=
  if jsTruthy h.traceid = true ∧ jsTruthy h.spanid = true then
    ({ traceId := h.traceid.getD ""
       spanId := h.spanid.getD ""
       parentId := if jsTruthy h.parentspanid = true then h.parentspanid else none
       sampled := if jsTruthy h.sampled = true then
           some (decide (h.sampled.getD "" = "1")) else none
       debug := if jsTruthy h.flags = true then
           decide (parseIntJS (h.flags.getD "") = some 1) else false }, ctr)
  else
    ({ traceId := freshId ctr
       spanId := freshId ctr
       parentId := none
       sampled := none
       debug := false }, ctr + 1)

/-! ## Streamify: the duplex stream bridge

Embeds the Streamify class state and its methods. A write issued through
the duplex machinery reaches the private write method: with a destination
attached it is forwarded to the destination stream together with its
completion callback (the destination completion, which invokes each handed
callback exactly once per forwarded write, is modelled as immediate);
without one it is appended to the pending queue. Attaching a destination
replays the pending queue in order through the destination write and then
clears the queue. Attaching a source registers the relay listeners and the
end listener and then calls the private read method with the remembered
read size, which assigns the onreadable field whenever a source is
present (the data-pull loop inside the onreadable closure moves bytes and
is not modelled; no claim concerns the pulled data). Detaching a source
removes the registered listeners, removing the readable listener through a
non-null assertion on the onreadable field; the removal of an undefined
listener is checked, since the event emitter rejects a listener argument
that is not a function. The readable-side end machinery of the duplex base
class is embedded through two flags: a push of null latches the ended
flag (a second push after end raises the push-after-end error instead),
and the machinery delivers the end event to the consumer at most once,
guarded by the end-emitted flag. -/

/-- A queued or forwarded write record: chunk, encoding and the identity
of its completion callback. -/
structure WriteRec where
  chunk : String
  enc : String
  cb : Nat
deriving DecidableEq

/-- The attached source and its registered listeners: the relay listeners
for the error and close events, the end listener, and the onreadable
field assigned by the private read method. -/
structure SourceRec where
  srcId : Nat
  errorRelay : Bool
  closeRelay : Bool
  onendSet : Bool
  onreadable : Option Unit
deriving DecidableEq

/-- The attached destination, its relay listeners for the drain and close
events, and the writes forwarded to it in order. -/
structure DestRec where
  destId : Nat
  drainRelay : Bool
  closeRelay : Bool
  received : List WriteRec
deriving DecidableEq

/-- The state of one Streamify instance together with the readable-side
end machinery of the duplex base class. -/
structure BridgeState where
  source : Option SourceRec
  dest : Option DestRec
  sourceRead : Option Nat
  destWritten : List WriteRec
  invoked : List Nat
  readEnded : Bool
  endEmitted : Bool
  endEvents : Nat
  pushAfterEof : Bool
deriving DecidableEq

/-- The state of a freshly constructed Streamify instance. -/
def bridgeInit : BridgeState :=
  { source := none, dest := none, sourceRead := none, destWritten := []
    invoked := [], readEnded := false, endEmitted := false, endEvents := 0
    pushAfterEof := false }

/-- Errors thrown by Streamify methods: the double-attach and missing-
attach errors, and the event-emitter rejection of a listener argument
that is not a function. -/
inductive StreamError where
  | alreadyAttached
  | notAttached
  | invalidListener
deriving DecidableEq

/-- The private write method: forward to the destination (whose completion
invokes the callback) when one is attached, append to the pending queue
otherwise. -/
def bridgeWrite (c : String) (e : String) (cb : Nat) (s : BridgeState) : BridgeState :=
  match s.dest with
  | some d =>
      { s with dest := some { d with received := d.received ++ [⟨c, e, cb⟩] }
               invoked := s.invoked ++ [cb] }
  | none => { s with destWritten := s.destWritten ++ [⟨c, e, cb⟩] }

/-- Replay of a list of writes through the private write method. -/
def applyWrites (ws : List WriteRec) (s : BridgeState) : BridgeState :=
  ws.foldl (fun st w => bridgeWrite w.chunk w.enc w.cb st) s

/-- The private read method: with a source attached it assigns the
onreadable field (and runs the pull loop, not modelled); without one it
remembers the requested size. -/
def bridgeRead (size : Option Nat) (s : BridgeState) : BridgeState :=
  match s.source with
  | some src => { s with source := some { src with onreadable := some () } }
  | none => { s with sourceRead := size }

/-- The addSource method: fails when a source is already attached;
otherwise stores the source with its relay and end listeners registered
and then calls the private read method with the remembered size. -/
def addSource (srcId : Nat) (s : BridgeState) : Except StreamError BridgeState :=
  if s.source.isSome then .error .alreadyAttached
  else
    let s1 := { s with source := some (SourceRec.mk srcId true true true none) }
    .ok (bridgeRead s1.sourceRead s1)

/-- Removal of one listener: the event emitter rejects an argument that
is not a function, so removing an unassigned listener fails. -/
def removeListenerChecked (l : Option Unit) : Except StreamError Unit :=
  match l with
  | some _ => .ok ()
  | none => .error .invalidListener

/-- The removeSource method: fails when no source is attached; otherwise
removes the relay listeners, the readable listener through the non-null
assertion on the onreadable field, and the end listener. -/
def removeSource (s : BridgeState) : Except StreamError BridgeState :=
  match s.source with
  | none => .error .notAttached
  | some src =>
    match removeListenerChecked src.onreadable with
    | .error e => .error e
    | .ok _ => .ok { s with source := none }

/-- The addDest method: fails when a destination is already attached;
otherwise stores the destination with its relay listeners, replays the
pending queue in order through the destination write, and clears the
queue. -/
def addDest (destId : Nat) (s : BridgeState) : Except StreamError BridgeState :=
  if s.dest.isSome then .error .alreadyAttached
  else
    let s1 := { s with dest := some (DestRec.mk destId true true []) }
    let s2 := applyWrites s.destWritten s1
    .ok { s2 with destWritten := [] }

/-- The removeDest method: fails when no destination is attached;
otherwise removes the relay listeners and resets the pending queue. -/
def removeDest (s : BridgeState) : Except StreamError BridgeState :=
  match s.dest with
  | none => .error .notAttached
  | some _ => .ok { s with dest := none, destWritten := [] }

/-- A push of null from the end listener of the source: the first one
latches the ended flag of the readable side, a later one raises the
push-after-end error instead of ending again. -/
def pushNull (s : BridgeState) : BridgeState :=
  if s.readEnded then { s with pushAfterEof := true }
  else { s with readEnded := true }

/-- Delivery of the readable end event to the consumer by the stream
machinery, guarded so it happens at most once. -/
def tryEmitEnd (s : BridgeState) : BridgeState :=
  if s.readEnded = true ∧ s.endEmitted = false then
    { s with endEmitted := true, endEvents := s.endEvents + 1 }
  else s

/-- An event of the readable-side end machinery: the source end listener
firing, or the machinery attempting delivery of the end event. -/
inductive EndEv where
  | sourceEnd
  | deliverEnd
deriving DecidableEq

/-- One step of the end machinery. -/
def endStep (s : BridgeState) : EndEv → BridgeState
  | .sourceEnd => pushNull s
  | .deliverEnd => tryEmitEnd s

/-- A run of the end machinery over a list of events. -/
def runEnd (s : BridgeState) (evs : List EndEv) : BridgeState :=
  evs.foldl endStep s

/-- A Streamify method call, for running call sequences against a state. -/
inductive BridgeOp where
  | opAddSource (i : Nat)
  | opRemoveSource
  | opAddDest (i : Nat)
  | opRemoveDest
deriving DecidableEq

/-- Application of one method call. -/
def applyOp (o : BridgeOp) (s : BridgeState) : Except StreamError BridgeState :=
  match o with
  | .opAddSource i => addSource i s
  | .opRemoveSource => removeSource s
  | .opAddDest i => addDest i s
  | .opRemoveDest => removeDest s

/-- One method call as the caller observes it: a thrown error leaves the
state unchanged, since every method throws before mutating. -/
def stepOp (o : BridgeOp) (s : BridgeState) : BridgeState × Option StreamError :=
  match applyOp o s with
  | .ok s1 => (s1, none)
  | .error e => (s, some e)

/-- A run of method calls, collecting the thrown errors in order. -/
def runOps (ops : List BridgeOp) (s : BridgeState) : BridgeState × List StreamError :=
  ops.foldl (fun (acc : BridgeState × List StreamError) o =>
    let r := stepOp o acc.1
    (r.1, acc.2 ++ (r.2.map (fun e => [e])).getD [])) (s, [])

/-- The writes the attached destination has received, in order. -/
def destReceived (s : BridgeState) : List WriteRec :=
  match s.dest with
  | some d => d.received
  | none => []

/-- A fresh bridge after a successful source attach, for concrete runs. -/
def attachedBridge : BridgeState :=
  match addSource 3 bridgeInit with
  | .ok s => s
  | .error _ => bridgeInit

/-- A fresh bridge after a successful source and destination attach, for
concrete runs. -/
def attachedBothBridge : BridgeState :=
  match addDest 9 attachedBridge with
  | .ok s => s
  | .error _ => attachedBridge

/-! ## Helper lemmas -/

/-- The digit list of a natural number is never empty. -/
theorem natDigits_ne_nil (n : Nat) : natDigits n ≠ [] := by
  rw [natDigits]
  split <;> simp

/-- The decimal string of a natural number is never empty. -/
theorem natRepr_ne_empty (n : Nat) : natRepr n ≠ "" := by
  intro h
  exact natDigits_ne_nil n (by simpa [natRepr, String.ext_iff] using h)

/-- An append whose right part is nonempty is nonempty. -/
theorem string_append_ne_empty_right (s t : String) (h : t ≠ "") : s ++ t ≠ "" := by
  intro he
  apply h
  have hd := congrArg String.data he
  rw [String.data_append] at hd
  exact String.ext (List.append_eq_nil.mp hd).2

/-- A string different from the empty string has a false emptiness test. -/
theorem isEmpty_false_of_ne (s : String) (h : s ≠ "") : s.isEmpty = false := by
  cases he : s.isEmpty
  · rfl
  · exact absurd ((String.isEmpty_iff s).mp he) h

/-- JSON serialization never yields the empty string. -/
theorem stringify_ne_empty : ∀ j, stringify j ≠ ""
  | .jnull => by decide
  | .jbool true => by decide
  | .jbool false => by decide
  | .jnum n => by simpa [stringify] using natRepr_ne_empty n
  | .jstr s => by
      rw [stringify]
      exact string_append_ne_empty_right _ _ (by decide)
  | .jarr l => by
      rw [stringify]
      exact string_append_ne_empty_right _ _ (by decide)
  | .jobj l => by
      rw [stringify]
      exact string_append_ne_empty_right _ _ (by decide)

/-- Filtering relayed chunks distributes over trace concatenation. -/
theorem relayedChunks_append (a b : List PEv) :
    relayedChunks (a ++ b) = relayedChunks a ++ relayedChunks b := by
  simp [relayedChunks]

/-- Filtering directly ended bodies distributes over trace concatenation. -/
theorem endedBodies_append (a b : List PEv) :
    endedBodies (a ++ b) = endedBodies a ++ endedBodies b := by
  simp [endedBodies]

/-- Hook invocations relay no body chunks. -/
theorem relayedChunks_hookCalls (p : LifePoint) (hooks : List Nat) :
    relayedChunks (hookCalls p hooks) = [] := by
  induction hooks with
  | nil => rfl
  | cons h t ih => simpa [hookCalls, relayedChunks] using ih

/-- Hook invocations end the client response with no body. -/
theorem endedBodies_hookCalls (p : LifePoint) (hooks : List Nat) :
    endedBodies (hookCalls p hooks) = [] := by
  induction hooks with
  | nil => rfl
  | cons h t ih => simpa [hookCalls, endedBodies] using ih

/-- The hook events of a point project from its own invocation block as
the registration-ordered strict start-return alternation. -/
theorem hookEvProj_hookCalls (p : LifePoint) (hooks : List Nat) :
    (hookCalls p hooks).filterMap (hookEvProj p)
      = hooks.flatMap (fun h => [(h, true), (h, false)]) := by
  induction hooks with
  | nil => rfl
  | cons h t ih => simp [hookCalls, hookEvProj] at ih ⊢; exact ih

/-- Hook invocations deliver no body bytes to the sink. -/
theorem hookCalls_no_body (p : LifePoint) (hooks : List Nat) :
    ∀ e ∈ hookCalls p hooks, isBodyByte e = false := by
  induction hooks with
  | nil => intro e he; cases he
  | cons h t ih =>
      intro e he
      simp [hookCalls] at he
      rcases he with he | he | ⟨a, _, he | he⟩ <;> (subst he; rfl)

/-! ## Claim C9 -/

/-- C9: for every POST or PUT request, building the outbound spec raises
the fatal unsupported-payload error exactly when the payload is neither
absent, text, a stream, a buffer, nor a structured object; for every
payload in the accepted shapes no error is raised at build time. -/
theorem c9_unsupported_payload (m : String) (p : Payload)
    (hm : m = "POST" ∨ m = "PUT") :
    (captureBody m p = .error .unsupportedPayloadType ↔ acceptedShape p = false)
    ∧ (acceptedShape p = true → ∃ b, captureBody m p = .ok b) := by
  rcases hm with h | h <;> subst h <;> cases p <;> simp [captureBody, acceptedShape]

/-- Witness for C9 at concrete inputs: a POST with a number payload
raises the error, a POST with a text payload does not. -/
theorem c9_unsupported_payload_witness :
    ((captureBody "POST" (Payload.jsNumber 3) = .error .unsupportedPayloadType
        ↔ acceptedShape (Payload.jsNumber 3) = false)
      ∧ (acceptedShape (Payload.jsNumber 3) = true
        → ∃ b, captureBody "POST" (Payload.jsNumber 3) = .ok b))
    ∧ ((captureBody "POST" (Payload.text "hi") = .error .unsupportedPayloadType
        ↔ acceptedShape (Payload.text "hi") = false)
      ∧ (acceptedShape (Payload.text "hi") = true
        → ∃ b, captureBody "POST" (Payload.text "hi") = .ok b)) :=
  ⟨c9_unsupported_payload "POST" (Payload.jsNumber 3) (Or.inl rfl),
   c9_unsupported_payload "POST" (Payload.text "hi") (Or.inl rfl)⟩

/-! ## Claim C3 -/

/-- C3 counterexample: a POST request with an absent payload dispatches
with no outbound body although the method is POST, so body attachment is
not equivalent to the method being POST or PUT. -/
theorem c3_counterexample :
    buildAndAttach "POST" Payload.absent = .ok none
    ∧ ¬ ((none : Option OutboundBody).isSome = true ↔ ("POST" = "POST" ∨ "POST" = "PUT")) := by
  constructor
  · simp only [buildAndAttach, captureBody, attachBody, bodyTruthy, Except.map]
    rfl
  · simp

/-- C3 (amended): for every inbound request whose build succeeds, an
outbound body is attached to the dispatched request if and only if the
method is POST or PUT and the payload is attachable, that is, neither
absent nor empty text nor an empty buffer; for every other method no body
is attached regardless of payload shape; and when a body is attached,
text payloads pass unchanged, buffers pass as their decoded text, objects
are serialized to JSON text, and live streams are forwarded as is. -/
theorem c3_body_capture (m : String) (p : Payload) (b : BodyVal)
    (h : captureBody m p = .ok b) :
    ((attachBody m b).isSome = true ↔ ((m = "POST" ∨ m = "PUT") ∧ attachablePayload p = true))
    ∧ (∀ s, p = .text s → (m = "POST" ∨ m = "PUT") → s ≠ ""
        → attachBody m b = some (.bridged s))
    ∧ (∀ s, p = .buffer s → (m = "POST" ∨ m = "PUT") → s ≠ ""
        → attachBody m b = some (.bridged s))
    ∧ (∀ j, p = .object j → (m = "POST" ∨ m = "PUT")
        → attachBody m b = some (.bridged (stringify j)))
    ∧ (∀ i, p = .pstream i → (m = "POST" ∨ m = "PUT")
        → attachBody m b = some (.live i)) := by
  by_cases hm : m = "POST" ∨ m = "PUT"
  · cases p <;> simp [captureBody, if_pos hm] at h <;> subst h <;>
      simp [attachBody, bodyTruthy, attachablePayload, hm] <;>
      first
        | rfl
        | exact fun hne => isEmpty_false_of_ne _ hne
        | exact isEmpty_false_of_ne _ (stringify_ne_empty _)
  · have hb : b = .str "" := by
      simpa [captureBody, if_neg hm] using h.symm
    subst hb
    simp [attachBody, bodyTruthy, attachablePayload, hm]

/-- Witness for C3 (amended) at a concrete input: a POST request with the
object payload containing one member a mapped to one is dispatched with
the serialized JSON text as its outbound body. -/
theorem c3_body_capture_witness :
    ((attachBody "POST" (BodyVal.str (stringify (Jv.jobj [("a", Jv.jnum 1)])))).isSome = true
      ↔ (("POST" = "POST" ∨ "POST" = "PUT")
          ∧ attachablePayload (Payload.object (Jv.jobj [("a", Jv.jnum 1)])) = true))
    ∧ (∀ s, Payload.object (Jv.jobj [("a", Jv.jnum 1)]) = .text s
        → ("POST" = "POST" ∨ "POST" = "PUT") → s ≠ ""
        → attachBody "POST" (BodyVal.str (stringify (Jv.jobj [("a", Jv.jnum 1)]))) = some (.bridged s))
    ∧ (∀ s, Payload.object (Jv.jobj [("a", Jv.jnum 1)]) = .buffer s
        → ("POST" = "POST" ∨ "POST" = "PUT") → s ≠ ""
        → attachBody "POST" (BodyVal.str (stringify (Jv.jobj [("a", Jv.jnum 1)]))) = some (.bridged s))
    ∧ (∀ j, Payload.object (Jv.jobj [("a", Jv.jnum 1)]) = .object j
        → ("POST" = "POST" ∨ "POST" = "PUT")
        → attachBody "POST" (BodyVal.str (stringify (Jv.jobj [("a", Jv.jnum 1)])))
            = some (.bridged (stringify j)))
    ∧ (∀ i, Payload.object (Jv.jobj [("a", Jv.jnum 1)]) = .pstream i
        → ("POST" = "POST" ∨ "POST" = "PUT")
        → attachBody "POST" (BodyVal.str (stringify (Jv.jobj [("a", Jv.jnum 1)])))
            = some (.live i)) :=
  c3_body_capture "POST" (Payload.object (Jv.jobj [("a", Jv.jnum 1)]))
    (BodyVal.str (stringify (Jv.jobj [("a", Jv.jnum 1)]))) (by simp [captureBody])

/-! ## Claim C4 -/

/-- C4: for every upstream response with a status code of at least 400,
the dispatcher relays none of the upstream body chunks to the client; it
ends the response itself with exactly the plain-text diagnostic body,
which contains the rendered numeric status code as a substring, so the
original upstream body is discarded. -/
theorem c4_error_branch (hooks : List Nat) (c : Nat) (upstream : List String)
    (hc : 400 ≤ c) :
    relayedChunks (onResponse hooks (some c) upstream) = []
    ∧ endedBodies (onResponse hooks (some c) upstream) = [diagnosticBody (some c)]
    ∧ (∃ pre, diagnosticBody (some c) = pre ++ natRepr c) := by
  have hbr : onResponse hooks (some c) upstream
      = [.recordStatus (some c)] ++ hookCalls .firstByte hooks
        ++ [.setHeader "X-Proxy-Server" "true"]
        ++ [.setHeader "Content-Type" "text/plain", .clientEndWith (diagnosticBody (some c))] := by
    simp [onResponse, hc]
  refine ⟨?_, ?_, ⟨"Error Occurred: proxyRes.statusCode: ", rfl⟩⟩
  · rw [hbr, relayedChunks_append, relayedChunks_append, relayedChunks_append,
      relayedChunks_hookCalls]
    rfl
  · rw [hbr, endedBodies_append, endedBodies_append, endedBodies_append,
      endedBodies_hookCalls]
    rfl

/-- Witness for C4 at a concrete input: an upstream 404 with a body is
answered by the diagnostic text containing the digits 404 and none of the
upstream chunks. -/
theorem c4_error_branch_witness :
    relayedChunks (onResponse [0] (some 404) ["secret"]) = []
    ∧ endedBodies (onResponse [0] (some 404) ["secret"]) = [diagnosticBody (some 404)]
    ∧ (∃ pre, diagnosticBody (some 404) = pre ++ natRepr 404) :=
  c4_error_branch [0] 404 ["secret"] (by decide)

/-! ## Claim C6 -/

/-- C6: for every ordered hook collection and every lifecycle point, the
response handler invokes every hook in registration order with each
invocation returning before the next starts, shown by the projection of
that point being the registration-ordered start-return alternation; and
the trace splits into a prefix carrying no body bytes and a suffix
carrying no first-byte hook events, so the first-byte hooks run before
any response body bytes reach the original sink. -/
theorem c6_hook_invocation_order (hooks : List Nat) (status : Option Nat)
    (upstream : List String) :
    ((onResponse hooks status upstream).filterMap (hookEvProj .firstByte)
        = hooks.flatMap (fun h => [(h, true), (h, false)]))
    ∧ (∃ pre post, onResponse hooks status upstream = pre ++ post
        ∧ (∀ e ∈ pre, isBodyByte e = false)
        ∧ (∀ e ∈ post, isFirstByteHookEv e = false))
    ∧ ((onUpstreamEnd hooks).filterMap (hookEvProj .upEnd)
        = hooks.flatMap (fun h => [(h, true), (h, false)]))
    ∧ ((onUpstreamClose hooks).filterMap (hookEvProj .upClose)
        = hooks.flatMap (fun h => [(h, true), (h, false)])) := by
  refine ⟨?_, ?_, hookEvProj_hookCalls _ _, hookEvProj_hookCalls _ _⟩
  · simp only [onResponse, List.filterMap_append, hookEvProj_hookCalls]
    split <;> simp [hookEvProj]
  · refine ⟨[.recordStatus status] ++ hookCalls .firstByte hooks
      ++ [.setHeader "X-Proxy-Server" "true"],
      (if 400 ≤ status.getD 700 then
          [.setHeader "Content-Type" "text/plain", .clientEndWith (diagnosticBody status)]
        else upstream.map .clientWrite), ?_, ?_, ?_⟩
    · simp [onResponse]
    · intro e he
      simp at he
      rcases he with he | he | he
      · subst he; rfl
      · exact hookCalls_no_body _ _ _ he
      · subst he; rfl
    · intro e he
      split at he
      · simp at he
        rcases he with he | he <;> (subst he; rfl)
      · simp at he
        obtain ⟨a, _, he⟩ := he
        subst he; rfl

/-! ## Claim C7 -/

/-- C7: every upstream transport failure is handled locally and never
reaches the caller as an exception: the dispatch succeeds with the
error-handler outcome, a full HTTP response sink receives status 500 with
the fixed plain-text body, and a raw socket sink is closed with no body
written. -/
theorem c7_transport_failure_recovered (e : UpstreamError) (hooks : List Nat) (sink : Sink) :
    proxyWeb hooks (.error e) sink = .ok (.inr (onProxyError e sink))
    ∧ onProxyError e Sink.httpResponse = .wrote 500 "text/plain" proxyErrorMessage
    ∧ onProxyError e Sink.rawSocket = .socketEnded
    ∧ outcomeBody (onProxyError e Sink.rawSocket) = none := by
  exact ⟨rfl, rfl, rfl, rfl⟩

/-! ## Claim C5 -/

/-- C5 counterexample: a request whose headers carry the trace-id header
with the empty string and a span-id header falls into the root branch, so
the constructed context does not take the trace id from the header as the
claim states for every present header pair. -/
theorem c5_counterexample :
    (createOrContinueTrace
        (B3Headers.mk (some "") (some "abc") none none none) 0).1.traceId ≠ ""
    ∧ (createOrContinueTrace
        (B3Headers.mk (some "") (some "abc") none none none) 0).1.spanId ≠ "abc" := by
  constructor <;> decide

/-- C5 (amended): for every request whose headers carry nonempty trace-id
and span-id values T and S, the constructed context continues the trace
with traceId T and spanId S, parentId equal to the parent header exactly
when that header is present and nonempty, sampled present exactly when
the sampled header is present and nonempty and then true exactly when it
is the string one, and debug true exactly when a present nonempty flags
header parses to one; when either identifying header is absent or empty a
fresh root context with new identifiers and no parent is built, and two
such requests in sequence receive two distinct trace ids. -/
theorem c5_trace_context (h : B3Headers) (c : Nat)
    (ht : jsTruthy h.traceid = true) (hs : jsTruthy h.spanid = true) :
    ((createOrContinueTrace h c).1.traceId = h.traceid.getD ""
      ∧ (createOrContinueTrace h c).1.spanId = h.spanid.getD ""
      ∧ (createOrContinueTrace h c).1.parentId
          = (if jsTruthy h.parentspanid = true then h.parentspanid else none)
      ∧ ((createOrContinueTrace h c).1.sampled.isSome = true ↔ jsTruthy h.sampled = true)
      ∧ (∀ v, h.sampled = some v → v ≠ ""
          → (createOrContinueTrace h c).1.sampled = some (decide (v = "1")))
      ∧ ((createOrContinueTrace h c).1.debug = true
          ↔ (jsTruthy h.flags = true ∧ parseIntJS (h.flags.getD "") = some 1))
      ∧ (createOrContinueTrace h c).2 = c)
    ∧ (∀ g1 g2 d,
        (jsTruthy g1.traceid = false ∨ jsTruthy g1.spanid = false)
        → (jsTruthy g2.traceid = false ∨ jsTruthy g2.spanid = false)
        → (createOrContinueTrace g1 d).1.parentId = none
          ∧ (createOrContinueTrace g1 d).1.traceId
              ≠ (createOrContinueTrace g2 (createOrContinueTrace g1 d).2).1.traceId) := by
  constructor
  · have hcond : jsTruthy h.traceid = true ∧ jsTruthy h.spanid = true := ⟨ht, hs⟩
    unfold createOrContinueTrace
    rw [if_pos hcond]
    refine ⟨rfl, rfl, rfl, ?_, ?_, ?_, rfl⟩
    · by_cases hsm : jsTruthy h.sampled = true <;> simp [hsm]
    · intro v hv hne
      have hsm : jsTruthy h.sampled = true := by
        rw [hv]; simp [jsTruthy, isEmpty_false_of_ne _ hne]
      show (if jsTruthy h.sampled = true then some (decide (h.sampled.getD "" = "1"))
          else none) = some (decide (v = "1"))
      rw [if_pos hsm, hv]
      rfl
    · by_cases hf : jsTruthy h.flags = true <;> simp [hf]
  · intro g1 g2 d h1 h2
    have hc1 : ¬ (jsTruthy g1.traceid = true ∧ jsTruthy g1.spanid = true) := by
      rcases h1 with h1 | h1 <;> simp [h1]
    have hc2 : ¬ (jsTruthy g2.traceid = true ∧ jsTruthy g2.spanid = true) := by
      rcases h2 with h2 | h2 <;> simp [h2]
    unfold createOrContinueTrace
    rw [if_neg hc1, if_neg hc2]
    refine ⟨rfl, ?_⟩
    intro he
    have hd := congrArg String.data he
    have hlen := congrArg List.length hd
    simp [freshId] at hlen

/-- Witness for C5 (amended) at concrete inputs: headers with trace id
abc, span id def, no parent, sampled one and flags one continue the
trace, and two header-less requests in sequence receive distinct ids. -/
theorem c5_trace_context_witness :
    ((createOrContinueTrace
        (B3Headers.mk (some "abc") (some "def") none (some "1") (some "1")) 5).1.traceId
          = (some "abc").getD ""
      ∧ (createOrContinueTrace
          (B3Headers.mk (some "abc") (some "def") none (some "1") (some "1")) 5).1.spanId
            = (some "def").getD ""
      ∧ (createOrContinueTrace
          (B3Headers.mk (some "abc") (some "def") none (some "1") (some "1")) 5).1.parentId
            = (if jsTruthy (none : Option String) = true then (none : Option String) else none)
      ∧ ((createOrContinueTrace
          (B3Headers.mk (some "abc") (some "def") none (some "1") (some "1")) 5).1.sampled.isSome
              = true
          ↔ jsTruthy (some "1") = true)
      ∧ (∀ v, (some "1" : Option String) = some v → v ≠ ""
          → (createOrContinueTrace
              (B3Headers.mk (some "abc") (some "def") none (some "1") (some "1")) 5).1.sampled
                = some (decide (v = "1")))
      ∧ ((createOrContinueTrace
          (B3Headers.mk (some "abc") (some "def") none (some "1") (some "1")) 5).1.debug = true
          ↔ (jsTruthy (some "1") = true ∧ parseIntJS ((some "1" : Option String).getD "") = some 1))
      ∧ (createOrContinueTrace
          (B3Headers.mk (some "abc") (some "def") none (some "1") (some "1")) 5).2 = 5)
    ∧ (∀ g1 g2 d,
        (jsTruthy g1.traceid = false ∨ jsTruthy g1.spanid = false)
        → (jsTruthy g2.traceid = false ∨ jsTruthy g2.spanid = false)
        → (createOrContinueTrace g1 d).1.parentId = none
          ∧ (createOrContinueTrace g1 d).1.traceId
              ≠ (createOrContinueTrace g2 (createOrContinueTrace g1 d).2).1.traceId) :=
  c5_trace_context (B3Headers.mk (some "abc") (some "def") none (some "1") (some "1")) 5
    (by decide) (by decide)

/-! ## Streamify lemmas -/

/-- Writes issued against a bridge with no destination are all queued in
submission order; nothing is forwarded and no callback fires. -/
theorem applyWrites_dest_none (ws : List WriteRec) (s : BridgeState) (h : s.dest = none) :
    (applyWrites ws s).dest = none
    ∧ (applyWrites ws s).destWritten = s.destWritten ++ ws
    ∧ (applyWrites ws s).invoked = s.invoked := by
  induction ws generalizing s with
  | nil => exact ⟨h, by simp [applyWrites], rfl⟩
  | cons w ws ih =>
      have h1 : applyWrites (w :: ws) s = applyWrites ws (bridgeWrite w.chunk w.enc w.cb s) := rfl
      have hw : bridgeWrite w.chunk w.enc w.cb s
          = { s with destWritten := s.destWritten ++ [w] } := by
        simp [bridgeWrite, h]
      rw [h1, hw]
      obtain ⟨a, b, c⟩ := ih { s with destWritten := s.destWritten ++ [w] } h
      refine ⟨a, ?_, c⟩
      rw [b]
      simp

/-- Writes issued against a bridge with an attached destination are all
forwarded to it in submission order, each completion callback firing once
from the destination completion; the pending queue is untouched. -/
theorem applyWrites_dest_some (ws : List WriteRec) (s : BridgeState) (d : DestRec)
    (h : s.dest = some d) :
    (applyWrites ws s).dest
        = some (DestRec.mk d.destId d.drainRelay d.closeRelay (d.received ++ ws))
    ∧ (applyWrites ws s).invoked = s.invoked ++ ws.map (fun w => w.cb)
    ∧ (applyWrites ws s).destWritten = s.destWritten := by
  obtain ⟨di, dr, dc, rc⟩ := d
  induction ws generalizing s rc with
  | nil =>
      refine ⟨?_, by simp [applyWrites], rfl⟩
      show s.dest = _
      rw [h]
      simp
  | cons w ws ih =>
      have h1 : applyWrites (w :: ws) s = applyWrites ws (bridgeWrite w.chunk w.enc w.cb s) := rfl
      have hw : bridgeWrite w.chunk w.enc w.cb s
          = { s with dest := some (DestRec.mk di dr dc (rc ++ [w]))
                     invoked := s.invoked ++ [w.cb] } := by
        simp [bridgeWrite, h]
      rw [h1, hw]
      obtain ⟨a, b, c⟩ := ih
        ({ s with dest := some (DestRec.mk di dr dc (rc ++ [w]))
                  invoked := s.invoked ++ [w.cb] }) (rc ++ [w]) rfl
      refine ⟨?_, ?_, c⟩
      · rw [a]; simp
      · rw [b]; simp

/-- The end-event counter always equals the end-emitted flag rendered as
zero or one, along every run of the end machinery. -/
theorem runEnd_counter_invariant (evs : List EndEv) (s : BridgeState)
    (h : s.endEvents = (if s.endEmitted = true then 1 else 0)) :
    (runEnd s evs).endEvents = (if (runEnd s evs).endEmitted = true then 1 else 0) := by
  induction evs generalizing s with
  | nil => exact h
  | cons e evs ih =>
      have h1 : runEnd s (e :: evs) = runEnd (endStep s e) evs := rfl
      rw [h1]
      apply ih
      cases e with
      | sourceEnd =>
          simp only [endStep, pushNull]
          split <;> simpa using h
      | deliverEnd =>
          simp only [endStep, tryEmitEnd]
          split
          · next h2 => simp [h, h2.2]
          · exact h

/-- The readable-side ended flag is never cleared by the end machinery. -/
theorem runEnd_readEnded_mono (evs : List EndEv) (s : BridgeState)
    (h : s.readEnded = true) : (runEnd s evs).readEnded = true := by
  induction evs generalizing s with
  | nil => exact h
  | cons e evs ih =>
      have h1 : runEnd s (e :: evs) = runEnd (endStep s e) evs := rfl
      rw [h1]
      apply ih
      cases e with
      | sourceEnd => simp only [endStep, pushNull]; split <;> simpa using h
      | deliverEnd => simp only [endStep, tryEmitEnd]; split <;> simpa using h

/-- After any run containing a source end signal, the readable side has
latched its ended flag. -/
theorem runEnd_readEnded_of_mem (evs : List EndEv) (s : BridgeState)
    (h : EndEv.sourceEnd ∈ evs) : (runEnd s evs).readEnded = true := by
  induction evs generalizing s with
  | nil => cases h
  | cons e evs ih =>
      have h1 : runEnd s (e :: evs) = runEnd (endStep s e) evs := rfl
      rw [h1]
      rcases List.mem_cons.mp h with he | he
      · subst he
        by_cases hm : EndEv.sourceEnd ∈ evs
        · exact ih _ hm
        · apply runEnd_readEnded_mono
          simp only [endStep, pushNull]
          split
          · next hr => simpa using hr
          · rfl
      · exact ih _ he

/-- The received list of a bridge whose destination is known. -/
theorem destReceived_eq (s : BridgeState) (d : DestRec) (h : s.dest = some d) :
    destReceived s = d.received := by
  simp [destReceived, h]

/-- Attaching a destination to a bridge without one succeeds and replays
the pending queue through the destination write, then clears the queue. -/
theorem addDest_replay (s : BridgeState) (dId : Nat) (h : s.dest = none) :
    addDest dId s
      = .ok { applyWrites s.destWritten
            ({ s with dest := some (DestRec.mk dId true true []) }) with
          destWritten := [] } := by
  simp [addDest, h]

/-! ## Claim C1 -/

/-- C1: for every sequence of writes issued while no destination is
attached, attaching a destination replays the queued writes against it in
original submission order and then clears the queue, and the invoked
completion callbacks are exactly those of the submitted writes in
submission order, each exactly once: at replay time for queued writes and
from the destination completion for writes made while attached. -/
theorem c1_write_queue_replay (pre post : List WriteRec) (s0 : BridgeState) (dId : Nat)
    (hd : s0.dest = none) (hq : s0.destWritten = []) :
    ∃ s2, addDest dId (applyWrites pre s0) = .ok s2
      ∧ destReceived s2 = pre
      ∧ s2.destWritten = []
      ∧ s2.invoked = s0.invoked ++ pre.map (fun w => w.cb)
      ∧ destReceived (applyWrites post s2) = pre ++ post
      ∧ (applyWrites post s2).invoked = s0.invoked ++ (pre ++ post).map (fun w => w.cb)
      ∧ ∀ cb, ((applyWrites post s2).invoked.count cb)
          = s0.invoked.count cb + (((pre ++ post).map (fun w => w.cb)).count cb) := by
  obtain ⟨a1, b1, c1inv⟩ := applyWrites_dest_none pre s0 hd
  have hq1 : (applyWrites pre s0).destWritten = pre := by rw [b1, hq, List.nil_append]
  have hstep := addDest_replay (applyWrites pre s0) dId a1
  obtain ⟨a2, b2, _⟩ := applyWrites_dest_some ((applyWrites pre s0).destWritten)
    ({ applyWrites pre s0 with dest := some (DestRec.mk dId true true []) })
    (DestRec.mk dId true true []) rfl
  have hdest2 : (applyWrites ((applyWrites pre s0).destWritten)
      ({ applyWrites pre s0 with dest := some (DestRec.mk dId true true []) })).dest
      = some (DestRec.mk dId true true pre) := by
    rw [a2]
    simp [hq1]
  have hs2dest : ({ applyWrites ((applyWrites pre s0).destWritten)
        ({ applyWrites pre s0 with dest := some (DestRec.mk dId true true []) }) with
      destWritten := ([] : List WriteRec) }).dest = some (DestRec.mk dId true true pre) :=
    hdest2
  have hs2inv : ({ applyWrites ((applyWrites pre s0).destWritten)
        ({ applyWrites pre s0 with dest := some (DestRec.mk dId true true []) }) with
      destWritten := ([] : List WriteRec) }).invoked
      = s0.invoked ++ pre.map (fun w => w.cb) := by
    show (applyWrites ((applyWrites pre s0).destWritten)
        ({ applyWrites pre s0 with dest := some (DestRec.mk dId true true []) })).invoked = _
    rw [b2]
    show (applyWrites pre s0).invoked ++ _ = _
    rw [c1inv, hq1]
  obtain ⟨a3, b3, _⟩ := applyWrites_dest_some post
    ({ applyWrites ((applyWrites pre s0).destWritten)
        ({ applyWrites pre s0 with dest := some (DestRec.mk dId true true []) }) with
      destWritten := ([] : List WriteRec) })
    (DestRec.mk dId true true pre) hs2dest
  have hinvAll : (applyWrites post
      ({ applyWrites ((applyWrites pre s0).destWritten)
          ({ applyWrites pre s0 with dest := some (DestRec.mk dId true true []) }) with
        destWritten := ([] : List WriteRec) })).invoked
      = s0.invoked ++ (pre ++ post).map (fun w => w.cb) := by
    rw [b3, hs2inv]
    simp
  refine ⟨_, hstep, ?_, rfl, hs2inv, ?_, hinvAll, ?_⟩
  · rw [destReceived_eq _ _ hs2dest]
  · rw [destReceived_eq _ _ a3]
  · intro cb
    rw [hinvAll]
    simp [List.count_append]

/-- Witness for C1 at concrete inputs: two writes queued before attach
and one after are all forwarded in order with each callback fired once. -/
theorem c1_write_queue_replay_witness :
    ∃ s2, addDest 7 (applyWrites
        [WriteRec.mk "a" "utf8" 0, WriteRec.mk "b" "utf8" 1] bridgeInit) = .ok s2
      ∧ destReceived s2 = [WriteRec.mk "a" "utf8" 0, WriteRec.mk "b" "utf8" 1]
      ∧ s2.destWritten = []
      ∧ s2.invoked = bridgeInit.invoked
          ++ [WriteRec.mk "a" "utf8" 0, WriteRec.mk "b" "utf8" 1].map (fun w => w.cb)
      ∧ destReceived (applyWrites [WriteRec.mk "c" "utf8" 2] s2)
          = [WriteRec.mk "a" "utf8" 0, WriteRec.mk "b" "utf8" 1] ++ [WriteRec.mk "c" "utf8" 2]
      ∧ (applyWrites [WriteRec.mk "c" "utf8" 2] s2).invoked
          = bridgeInit.invoked
            ++ ([WriteRec.mk "a" "utf8" 0, WriteRec.mk "b" "utf8" 1]
                ++ [WriteRec.mk "c" "utf8" 2]).map (fun w => w.cb)
      ∧ ∀ cb, ((applyWrites [WriteRec.mk "c" "utf8" 2] s2).invoked.count cb)
          = bridgeInit.invoked.count cb
            + ((([WriteRec.mk "a" "utf8" 0, WriteRec.mk "b" "utf8" 1]
                ++ [WriteRec.mk "c" "utf8" 2]).map (fun w => w.cb)).count cb) :=
  c1_write_queue_replay [WriteRec.mk "a" "utf8" 0, WriteRec.mk "b" "utf8" 1]
    [WriteRec.mk "c" "utf8" 2] bridgeInit 7 rfl rfl

/-! ## Claim C2 -/

/-- C2: starting from a bridge whose readable side has not ended, any run
of the end machinery observes at most one readable end delivery, and once
the source end listener has fired at least once, a subsequent delivery
attempt leaves exactly one end delivery observed, no matter how many
times the underlying end signal fired. -/
theorem c2_end_exactly_once (s0 : BridgeState) (evs : List EndEv)
    (h1 : s0.readEnded = false) (h2 : s0.endEmitted = false) (h3 : s0.endEvents = 0) :
    (runEnd s0 evs).endEvents ≤ 1
    ∧ (EndEv.sourceEnd ∈ evs → (tryEmitEnd (runEnd s0 evs)).endEvents = 1) := by
  have hinv : (runEnd s0 evs).endEvents
      = (if (runEnd s0 evs).endEmitted = true then 1 else 0) :=
    runEnd_counter_invariant evs s0 (by rw [h3, h2]; simp)
  constructor
  · rw [hinv]
    split <;> omega
  · intro hm
    have hre : (runEnd s0 evs).readEnded = true := runEnd_readEnded_of_mem evs s0 hm
    unfold tryEmitEnd
    by_cases he : (runEnd s0 evs).endEmitted = true
    · have hcond : ¬((runEnd s0 evs).readEnded = true
          ∧ (runEnd s0 evs).endEmitted = false) := by simp [he]
      rw [if_neg hcond, hinv, he]
      simp
    · have hcond : (runEnd s0 evs).readEnded = true
          ∧ (runEnd s0 evs).endEmitted = false := ⟨hre, by simpa using he⟩
      rw [if_pos hcond]
      show (runEnd s0 evs).endEvents + 1 = 1
      rw [hinv]
      simp [he]

/-- Witness for C2 at a concrete input: on a freshly attached bridge the
source end fires twice with two delivery attempts, and exactly one end
delivery is observed. -/
theorem c2_end_exactly_once_witness :
    (runEnd attachedBridge
        [EndEv.sourceEnd, EndEv.deliverEnd, EndEv.sourceEnd, EndEv.deliverEnd]).endEvents ≤ 1
    ∧ (EndEv.sourceEnd
          ∈ [EndEv.sourceEnd, EndEv.deliverEnd, EndEv.sourceEnd, EndEv.deliverEnd]
        → (tryEmitEnd (runEnd attachedBridge
            [EndEv.sourceEnd, EndEv.deliverEnd, EndEv.sourceEnd, EndEv.deliverEnd])).endEvents
              = 1) :=
  c2_end_exactly_once attachedBridge
    [EndEv.sourceEnd, EndEv.deliverEnd, EndEv.sourceEnd, EndEv.deliverEnd]
    (by decide) (by decide) (by decide)

/-! ## Claim C8 -/

/-- C8: attaching a source when one is attached fails with the
already-attached error, detaching with none fails with the not-attached
error, the symmetric properties hold for the destination, and every
failed attach or detach leaves the caller state unchanged. -/
theorem c8_attach_detach_errors (s : BridgeState) (i : Nat) :
    (s.source.isSome = true →
        applyOp (.opAddSource i) s = .error .alreadyAttached
        ∧ stepOp (.opAddSource i) s = (s, some .alreadyAttached))
    ∧ (s.source = none →
        applyOp .opRemoveSource s = .error .notAttached
        ∧ stepOp .opRemoveSource s = (s, some .notAttached))
    ∧ (s.dest.isSome = true →
        applyOp (.opAddDest i) s = .error .alreadyAttached
        ∧ stepOp (.opAddDest i) s = (s, some .alreadyAttached))
    ∧ (s.dest = none →
        applyOp .opRemoveDest s = .error .notAttached
        ∧ stepOp .opRemoveDest s = (s, some .notAttached)) := by
  refine ⟨fun h => ?_, fun h => ?_, fun h => ?_, fun h => ?_⟩ <;>
    simp [applyOp, stepOp, addSource, removeSource, addDest, removeDest, h]

/-- Witness for C8 at concrete inputs: double attaches on a bridge with
both sides attached and detaches on a fresh bridge all fail with the
expected errors and leave the state unchanged. -/
theorem c8_attach_detach_errors_witness :
    (applyOp (.opAddSource 1) attachedBothBridge = .error .alreadyAttached
      ∧ stepOp (.opAddSource 1) attachedBothBridge
          = (attachedBothBridge, some .alreadyAttached))
    ∧ (applyOp .opRemoveSource bridgeInit = .error .notAttached
      ∧ stepOp .opRemoveSource bridgeInit = (bridgeInit, some .notAttached))
    ∧ (applyOp (.opAddDest 1) attachedBothBridge = .error .alreadyAttached
      ∧ stepOp (.opAddDest 1) attachedBothBridge
          = (attachedBothBridge, some .alreadyAttached))
    ∧ (applyOp .opRemoveDest bridgeInit = .error .notAttached
      ∧ stepOp .opRemoveDest bridgeInit = (bridgeInit, some .notAttached)) :=
  ⟨(c8_attach_detach_errors attachedBothBridge 1).1 (by decide),
   (c8_attach_detach_errors bridgeInit 1).2.1 rfl,
   (c8_attach_detach_errors attachedBothBridge 1).2.2.1 (by decide),
   (c8_attach_detach_errors bridgeInit 1).2.2.2 rfl⟩

/-! ## Claim C10 -/

/-- C10 counterexample: attaching a source to a fresh bridge and then
detaching it, with no read performed in between by the consumer,
completes cleanly with no error thrown, because the attach itself runs
the private read method, which assigns the onreadable field. -/
theorem c10_counterexample :
    (runOps [.opAddSource 5, .opRemoveSource] bridgeInit).2 = []
    ∧ (runOps [.opAddSource 5, .opRemoveSource] bridgeInit).1.source = none := by
  decide

/-- C10 (amended): detaching the source after a plain attach always
completes cleanly: although removeSource unregisters the readable
listener through a non-null assertion on a field assigned only by the
private read method, addSource itself calls that method, which assigns
the field whenever a source is present, so the assertion never sees an
undefined listener. -/
theorem c10_detach_after_attach (s : BridgeState) (i : Nat) (h : s.source = none) :
    ∃ s1, addSource i s = .ok s1
      ∧ (∃ src, s1.source = some src ∧ src.onreadable = some ())
      ∧ ∃ s2, removeSource s1 = .ok s2 ∧ s2.source = none := by
  have ha : addSource i s
      = .ok { s with source := some (SourceRec.mk i true true true (some ())) } := by
    simp [addSource, h, bridgeRead]
  exact ⟨_, ha, ⟨_, rfl, rfl⟩, _, rfl, rfl⟩

/-- Witness for C10 (amended) at a concrete input: attach then detach on
a fresh bridge succeeds with the onreadable field assigned in between. -/
theorem c10_detach_after_attach_witness :
    ∃ s1, addSource 5 bridgeInit = .ok s1
      ∧ (∃ src, s1.source = some src ∧ src.onreadable = some ())
      ∧ ∃ s2, removeSource s1 = .ok s2 ∧ s2.source = none :=
  c10_detach_after_attach bridgeInit 5 rfl
